import Mathlib

/-!
Verification development for the fledge-south-playback plugin
(src/python/foglamp/plugins/south/playback/playback.py).

The Python source is shallowly embedded: pure fragments become Lean
functions, thread-local mutable state becomes explicit state passing,
Python exceptions become an `Except` result.  Machine floats produced by
the source are represented by the exact rational value of the decimal
literal involved; every instantiation below is chosen so that the binary
floating point artefacts of CPython cannot change the stated result.
-/

/-- Decidable equality for `Except`, used to evaluate embedded fallible
code on concrete inputs. -/
instance {ε α : Type} [DecidableEq ε] [DecidableEq α] : DecidableEq (Except ε α) := fun a b =>
  match a, b with
  | .ok x, .ok y =>
    if h : x = y then .isTrue (by rw [h]) else .isFalse (by simp [h])
  | .error x, .error y =>
    if h : x = y then .isTrue (by rw [h]) else .isFalse (by simp [h])
  | .ok _, .error _ => .isFalse (by simp)
  | .error _, .ok _ => .isFalse (by simp)

/-- Python exceptions relevant to the embedded fragments. -/
inductive PyExc where
  | valueError
  | syntaxError
  | runtimeError (msg : String)
deriving DecidableEq

/-- A coerced field value: the three shapes produced by the record
generator `Producer.get_data` (int, float, or the string kept verbatim). -/
inductive PyVal where
  | int (n : ℤ)
  | float (q : ℚ)
  | str (s : String)
deriving DecidableEq

/-- The characters of the character class in the regex at
playback.py:348-349 other than the ASCII letters: space, backtick and the
listed punctuation (the class contains no digit, no minus and no dot). -/
def gateSpecials : List Char :=
  (" `~!@#$%^&*()_=+\x7d\x7b][|;:\"<>,?/\\".data) ++ [Char.ofNat 39]

/-- Membership in the regex character class of playback.py:348-349
(ASCII letters plus the punctuation above). -/
def inGateSet (c : Char) : Bool :=
  (c.isUpper || c.isLower) || gateSpecials.contains c

/-- Model of `regex.search(v) is not None`: some character of `v` lies in
the character class. -/
def regexSearch (v : String) : Bool :=
  v.data.any inGateSet

/-- Decimal value of a digit run. -/
def digitsVal (cs : List Char) : ℕ :=
  cs.foldl (fun a c => 10 * a + (c.toNat - 48)) 0

/-- Python 3 decimal integer literal: nonempty digits, and a leading zero
only when every digit is zero (`007` is not a valid literal in Python 3). -/
def intLit (cs : List Char) : Option ℤ :=
  if cs.isEmpty then none
  else if !cs.all Char.isDigit then none
  else if cs.headD '0' == '0' && !cs.all (fun d => d == '0') then none
  else some (digitsVal cs)

/-- Python float literal restricted to the characters that can reach
`ast.literal_eval` behind the regex gate: `digits . digits` with one side
possibly empty but at least one digit in total (exponents contain the
letter `e`, which the gate already rejects). -/
def floatLit (cs : List Char) : Option ℚ :=
  let intPart := cs.takeWhile Char.isDigit
  let rest := cs.dropWhile Char.isDigit
  match rest with
  | '.' :: frac =>
      if frac.all Char.isDigit && !(intPart.isEmpty && frac.isEmpty) then
        some (Rat.divInt (digitsVal intPart * 10 ^ frac.length + digitsVal frac) (10 ^ frac.length))
      else none
  | _ => none

/-- Tokens of the residual expression grammar over digits, dot and minus. -/
inductive Tok where
  | num
  | minus
deriving DecidableEq

/-- Consume one Python NUMBER token (greedy), returning the rest of the
input; mirrors the CPython tokenizer on the post-gate alphabet, including
the leading-zero restriction on plain integer tokens. -/
def numTok : List Char → Option (List Char)
  | [] => none
  | c :: cs =>
    if c.isDigit then
      let ds := (c :: cs).takeWhile Char.isDigit
      let rest := (c :: cs).dropWhile Char.isDigit
      match rest with
      | '.' :: r2 => some (r2.dropWhile Char.isDigit)
      | _ => if c == '0' && !ds.all (fun d => d == '0') then none else some rest
    else if c == '.' then
      match cs with
      | [] => none
      | d :: _ => if d.isDigit then some (cs.dropWhile Char.isDigit) else none
    else none

/-- Tokenize a character list into NUMBER and minus tokens; `none` when
some character cannot start a token (a tokenizer-level SyntaxError).
The fuel argument is the length of the input. -/
def tokenize : ℕ → List Char → Option (List Tok)
  | _, [] => some []
  | 0, _ :: _ => none
  | Nat.succ fuel, cs =>
    match cs with
    | [] => some []
    | '-' :: rest => (tokenize fuel rest).map (fun ts => Tok.minus :: ts)
    | _ =>
      match numTok cs with
      | some rest => (tokenize fuel rest).map (fun ts => Tok.num :: ts)
      | none => none

/-- A token list is a syntactically valid Python expression over numbers
and (unary or binary) minus exactly when it is nonempty, ends with a
number and never puts two numbers side by side. -/
def toksValid (ts : List Tok) : Bool :=
  ts.getLast? == some Tok.num &&
  (ts.zip ts.tail).all (fun p => !(p.1 == Tok.num && p.2 == Tok.num))

/-- Model of `ast.literal_eval` on the strings that pass the regex gate of
playback.py:348-354 (alphabet: digits, dot, minus).  A signed integer or
float literal evaluates to its value; any other syntactically valid
expression (binary minus, doubled sign) raises ValueError exactly as
CPython's literal_eval does; everything else raises SyntaxError from the
parser. -/
def literalEvalNum (s : String) : Except PyExc PyVal :=
  let cs := s.data
  let negs := cs.takeWhile (fun c => c == '-')
  let rest := cs.dropWhile (fun c => c == '-')
  match intLit rest with
  | some n =>
    if negs.length == 0 then .ok (.int n)
    else if negs.length == 1 then .ok (.int (-n))
    else .error .valueError
  | none =>
  match floatLit rest with
  | some q =>
    if negs.length == 0 then .ok (.float q)
    else if negs.length == 1 then .ok (.float (Rat.neg q))
    else .error .valueError
  | none =>
    match tokenize cs.length cs with
    | some ts => if toksValid ts then .error .valueError else .error .syntaxError
    | none => .error .syntaxError

/-- Field coercion of `Producer.get_data` (playback.py:350-360): a value
matching the regex class is kept as a string; otherwise
`ast.literal_eval` decides int versus float versus verbatim string; only
`ValueError` is caught and falls back to the string — any other exception
(notably `SyntaxError`) escapes the per-value handler. -/
def coerceField (v : String) : Except PyExc PyVal :=
  if regexSearch v then .ok (.str v)
  else
    match literalEvalNum v with
    | .ok (.int n) => .ok (.int n)
    | .ok (.float q) => .ok (.float q)
    | .ok _ => .ok (.str v)
    | .error .valueError => .ok (.str v)
    | .error e => .error e

/-- One row of coerced fields, in file order. -/
abbrev Row := List (String × PyVal)

/-- Coerce the fields of one raw row in order; the first escaping
exception aborts the row, as in the generator body. -/
def coerceRow : List (String × String) → Except PyExc Row
  | [] => .ok []
  | (k, v) :: rest =>
    match coerceField v with
    | .ok pv =>
      match coerceRow rest with
      | .ok rs => .ok ((k, pv) :: rs)
      | .error e => .error e
    | .error e => .error e

/-- The output sequence of the `get_data` generator (playback.py:350-362)
on the parsed raw rows: each row is coerced in turn; if a row raises, the
generator surfaces that exception once and is then exhausted (a Python
generator that raised is dead), so everything after the first error is
lost. -/
def get_data (rows : List (List (String × String))) : List (Except PyExc Row) :=
  match rows with
  | [] => []
  | r :: rs =>
    match coerceRow r with
    | .ok cr => .ok cr :: get_data rs
    | .error e => [.error e]

/-- Embeds `Producer.get_time_stamp_diff` (playback.py:364-382), with
timestamps as rational seconds and `datetime.strptime` abstracted by
passing its outcome for the current row.  `c` starts at 0; with no stored
previous timestamp the delay stays 0 and the timestamp is stored; with a
stored one the delay is the raw difference current minus previous (which
may be zero or negative); any exception is re-raised as RuntimeError. -/
def get_time_stamp_diff (parsed : Except String ℚ) (prv : Option ℚ) :
    Except PyExc (ℚ × Option ℚ) :=
  match parsed with
  | .error ex => .error (.runtimeError ex)
  | .ok ts =>
    match prv with
    | none => .ok (0, some ts)
    | some p => .ok (ts - p, some ts)

/-- Duration actually spent in `wait_event.wait(timeout=t)`
(playback.py:432): an already-set event returns at once, a non-positive
timeout returns at once, otherwise the timeout elapses (nothing sets the
event during a replay except shutdown). -/
def event_wait (cancel : Bool) (t : ℚ) : ℚ :=
  if cancel then 0 else if t ≤ 0 then 0 else t

/-- Number of decimal digits, i.e. Python `len(str(n))` for a
nonnegative integer, via an explicit fuel so that it evaluates by
kernel reduction. -/
def numDigitsAux : ℕ → ℕ → ℕ
  | 0, _ => 1
  | fuel + 1, n => if n < 10 then 1 else numDigitsAux fuel (n / 10) + 1

/-- Python `len(str(n))` for a natural number. -/
def numDigits (n : ℕ) : ℕ := numDigitsAux n n

/-- Python `round(q, n)` on the exact decimal value: round half to even
at the n-th decimal place.  CPython rounds the double nearest to the
source expression; every instantiation used below is far from a decimal
tie, where the two agree. -/
def pyRound (q : ℚ) (n : ℕ) : ℚ :=
  let s : ℚ := q * 10 ^ n
  let f : ℤ := ⌊s⌋
  let r : ℤ :=
    if s - f < 1/2 then f
    else if (1 : ℚ)/2 < s - f then f + 1
    else if f % 2 = 0 then f else f + 1
  (r : ℚ) / 10 ^ n

/-- The per-session nominal tick period computed once in
`Producer.__init__` (playback.py:293-302): in burst mode
`round(burstInterval/1000.0, len(str(burstInterval))+1)`, otherwise
`round(1.0/sampleRate, len(str(sampleRate))+1)`, with the
ZeroDivisionError fallback of 1.0 when the sample rate is zero. -/
def producer_period (ingestBurst : Bool) (burstInterval sampleRate : ℕ) : ℚ :=
  if ingestBurst then pyRound (burstInterval / 1000) (numDigits burstInterval + 1)
  else if sampleRate = 0 then 1
  else pyRound (1 / sampleRate) (numDigits sampleRate + 1)

/-- The configuration fields of the handle that `Producer.run` consults,
after the parsing done in `Producer.__init__`: ingest mode, burst size,
the timestamp-replay flag, the loop flag, the `readingCols` rename
mapping in insertion order, and the precomputed period. -/
structure Cfg where
  ingestBurst : Bool
  burstSize : ℕ
  tsFromFile : Bool
  repeatLoop : Bool
  readingCols : List (String × String)
  period : ℚ

/-- The `sensor_data` dict assembled by one tick of `Producer.run`:
either the (possibly cherry-picked) fields of a single record, or the
`\x7b"data": [...]\x7d` wrapper of burst mode.  `batch []` is the empty
dict. -/
inductive SensorData where
  | batch (fields : Row)
  | burstData (points : List Row)
deriving DecidableEq

/-- Python `len(sensor_data)`: number of keys of the dict. -/
def sdLen : SensorData → ℕ
  | .batch fs => fs.length
  | .burstData _ => 1

/-- The cherry-pick of playback.py:399-407 and 412-418: with a nonempty
`readingCols` mapping, keep exactly the mapped columns under their new
names, in mapping order; with an empty mapping pass the row through. -/
def applyCols (cols : List (String × String)) (row : Row) : Row :=
  if cols.isEmpty then row
  else cols.filterMap fun kv =>
    match row.lookup kv.1 with
    | some v => some (kv.2, v)
    | none => none

/-- Remaining output of the `get_data` generator as consumed through
`next(self.iter_sensor_data)`. -/
abbrev Iter := List (Except PyExc Row)

/-- Result of one `next()` call on the generator. -/
inductive ReadRes where
  | row (r : Row)
  | stop
  | exc (e : PyExc)

/-- One `next(self.iter_sensor_data)`: an exhausted generator raises
StopIteration; a generator whose body raises surfaces the exception and
is dead afterwards. -/
def nextRead : Iter → ReadRes × Iter
  | [] => (.stop, [])
  | .ok r :: rest => (.row r, rest)
  | .error e :: _ => (.exc e, [])

/-- Outcome of the burst collection loop of playback.py:396-407. -/
inductive BurstOut where
  | allRead (pts : List Row) (it : Iter)
  | eofHit (pts : List Row) (it : Iter)
  | excHit (it : Iter)

/-- The `for i in range(burstSize)` loop of playback.py:397-407: pull and
cherry-pick records in order; StopIteration mid-burst keeps the records
collected so far; any other exception discards them (the enclosing
handler at playback.py:429 only logs). -/
def collectBurst (cols : List (String × String)) : ℕ → Iter → BurstOut
  | 0, it => .allRead [] it
  | n + 1, it =>
    match nextRead it with
    | (.row r, it2) =>
      let pt := applyCols cols r
      match collectBurst cols n it2 with
      | .allRead pts it3 => .allRead (pt :: pts) it3
      | .eofHit pts it3 => .eofHit (pt :: pts) it3
      | .excHit it3 => .excHit it3
    | (.stop, it2) => .eofHit [] it2
    | (.exc _, it2) => .excHit it2

/-- The Producer-thread state that survives from one iteration of the
`while True` loop to the next: the generator cursor, the stored previous
timestamp, the Python local `next_iteration_secs` (`none` models the
variable not yet being bound: Python raises UnboundLocalError when it is
read in that state), whether this thread currently owns the shared
condition lock, and the bucket contents. -/
structure PState where
  iter : Iter
  prv : Option ℚ
  nis : Option ℚ
  owned : Bool
  queue : List SensorData

/-- How one loop iteration of `Producer.run` ends. -/
inductive TickStatus where
  | continued
  | finished
  | crashed
deriving DecidableEq

/-- Result of the lock/push/signal block of playback.py:435-442. -/
structure LockOut where
  owned : Bool
  buf : List SensorData
  pushed : Option SensorData
  notified : Bool

/-- The lock/push/signal block of playback.py:435-442: acquire the
condition lock unless this thread already owns it; push `sensor_data`
only when the dict is nonempty; notify the Consumer and release the lock
exactly when the queue is full or end of data was reached — otherwise
the lock stays owned into the next loop iteration.  `Queue.full()` is
`0 < maxsize ≤ qsize`; `Queue.put` is modelled as an append (its
blocking behaviour is treated in the handoff-queue step relation). -/
def lockPhase (owned : Bool) (buf : List SensorData) (sd : SensorData)
    (eofR : Bool) (cap : ℕ) : LockOut :=
  let buf2 := if 0 < sdLen sd then buf ++ [sd] else buf
  let pushed := if 0 < sdLen sd then some sd else none
  let full := decide (0 < cap) && decide (cap ≤ buf2.length)
  let notif := full || eofR
  { owned := if notif then false else true
    buf := buf2
    pushed := pushed
    notified := notif }

/-- Observable outcome of one iteration of the `Producer.run` loop. -/
structure TickOut where
  status : TickStatus
  state : PState
  pushed : Option SensorData
  notified : Bool
  waited : ℚ

/-- One iteration of the `while True` loop of `Producer.run`
(playback.py:384-450).  `parseTs` abstracts
`strptime(readings[tsCol], tsFormat)` on the full row; `freshIter` is
the sequence a restarted generator would yield; `cap` the bucket
capacity; `elapsed` the read/coerce time already spent this tick;
`cancel` the global `wait_event` flag.  The try-block builds
`sensor_data`, sets `eof_reached` on StopIteration, and on any other
exception only logs — in particular `next_iteration_secs` is left as it
was, and if it was never bound the subsequent wait call raises
UnboundLocalError, killing the thread (status `crashed`). -/
def producerTick (cfg : Cfg) (parseTs : Row → Except String ℚ)
    (freshIter : Iter) (cap : ℕ) (elapsed : ℚ) (cancel : Bool)
    (s : PState) : TickOut :=
  let rp : SensorData × Bool × Option ℚ × Iter × Option ℚ :=
    if cfg.ingestBurst then
      match collectBurst cfg.readingCols cfg.burstSize s.iter with
      | .allRead pts it2 => (.burstData pts, false, some cfg.period, it2, s.prv)
      | .eofHit pts it2 =>
          ((if pts.isEmpty then .batch [] else .burstData pts), true, s.nis, it2, s.prv)
      | .excHit it2 => (.batch [], false, s.nis, it2, s.prv)
    else
      match nextRead s.iter with
      | (.row r, it2) =>
          let sd := SensorData.batch (applyCols cfg.readingCols r)
          if cfg.tsFromFile then
            match get_time_stamp_diff (parseTs r) s.prv with
            | .ok cp => (sd, false, some cp.1, it2, cp.2)
            | .error _ => (sd, false, s.nis, it2, s.prv)
          else (sd, false, some cfg.period, it2, s.prv)
      | (.stop, it2) => (.batch [], true, s.nis, it2, s.prv)
      | (.exc _, it2) => (.batch [], false, s.nis, it2, s.prv)
  match rp with
  | (sd, eofR, nis2, it2, prv2) =>
    match nis2 with
    | none =>
      { status := .crashed
        state := { s with iter := it2, prv := prv2 }
        pushed := none
        notified := false
        waited := 0 }
    | some d =>
      let w := event_wait cancel (d - elapsed)
      let lo := lockPhase s.owned s.queue sd eofR cap
      let s2 : PState :=
        { iter := it2, prv := prv2, nis := some d, owned := lo.owned, queue := lo.buf }
      if eofR then
        if cfg.repeatLoop then
          { status := .continued
            state := { s2 with iter := freshIter }
            pushed := lo.pushed
            notified := lo.notified
            waited := w }
        else
          { status := .finished, state := s2, pushed := lo.pushed
            notified := lo.notified, waited := w }
      else
        { status := .continued, state := s2, pushed := lo.pushed
          notified := lo.notified, waited := w }

/-- The module-level session state touched by `plugin_shutdown`: the
global `wait_event` flag and whether the producer and consumer
references are set. -/
structure Session where
  waitEventSet : Bool
  producerRef : Bool
  consumerRef : Bool
deriving DecidableEq

/-- `plugin_shutdown` (playback.py:263-282): sets `wait_event` first,
then for each still-referenced thread clears its `_tstate_lock`, calls
the bookkeeping method `Thread._stop()` (which only marks the thread
object as stopped — it does not interrupt `run`), and drops the
reference.  Total, and a second call finds both references cleared. -/
def plugin_shutdown (g : Session) : Session :=
  { waitEventSet := true, producerRef := false, consumerRef := false }

/-- The bucket-capacity computation of `plugin_start`
(playback.py:217-224) acting on the module-level global `BUCKET_SIZE`
(playback.py:148, initial value 1): the global is reassigned to the
sample rate exactly when `timestampFromFile` is the string `false`, and
the bucket is then created with the resulting global value. -/
def plugin_start_bucket (bucketSize : ℕ) (tsFromFile : String)
    (sampleRate : ℕ) : ℕ :=
  if tsFromFile == "false" then sampleRate else bucketSize

/-- The configuration values examined by `plugin_init`
(playback.py:169-205), with the numeric fields already through `int()`
and the `os.path.isfile` probe abstracted as a boolean. -/
structure InitCfg where
  csvFileExists : Bool
  csvFilename : String
  sampleRate : ℤ
  burstSize : ℤ
  burstInterval : ℤ
  ingestMode : String
deriving DecidableEq

/-- The aggregated `errors` flag of `plugin_init` (playback.py:179-198):
every check runs (and logs) independently; note the mode check accepts
`realtime` in addition to the two documented modes. -/
def initErrors (c : InitCfg) : Bool :=
  decide (c.csvFileExists = false) || decide (c.csvFilename = "") ||
  decide (c.sampleRate < 1) || decide (1000000 < c.sampleRate) ||
  decide (c.burstSize < 1) || decide (c.burstInterval < 1) ||
  decide (¬ (c.ingestMode = "burst" ∨ c.ingestMode = "realtime" ∨ c.ingestMode = "batch"))

/-- `plugin_init` (playback.py:169-205): run all checks, then raise a
single RuntimeError if any failed, else return the deep-copied
configuration unchanged. -/
def plugin_init (c : InitCfg) : Except PyExc InitCfg :=
  if initErrors c then .error (.runtimeError "") else .ok c

/-- State of the handoff queue together with its push and drain
history: `pushed` is every envelope ever `put` (playback.py:439) in
order, `buf` the current `queue.Queue` contents, `drained` every
envelope the Consumer has taken with `get` (playback.py:466) in order. -/
structure QState (α : Type) where
  pushed : List α
  buf : List α
  drained : List α

/-- Interleaving semantics of the bounded handoff queue: a Producer step
appends one envelope (`Queue.put` blocks unless the occupancy is below
the capacity), a Consumer step removes the oldest buffered envelope
(`Queue.get` inside the `while qsize > 0` drain loop of
playback.py:465-467). -/
inductive QStep (cap : ℕ) {α : Type} : QState α → QState α → Prop
  | push (s : QState α) (x : α) (h : s.buf.length < cap) :
      QStep cap s ⟨s.pushed ++ [x], s.buf ++ [x], s.drained⟩
  | drain (s : QState α) (x : α) (rest : List α) (h : s.buf = x :: rest) :
      QStep cap s ⟨s.pushed, rest, s.drained ++ [x]⟩

/-- The queue of a fresh session (playback.py:224). -/
def qInit (α : Type) : QState α := ⟨[], [], []⟩

/-- States reachable by any interleaving of Producer pushes and Consumer
drains from the fresh queue. -/
inductive QReach (cap : ℕ) {α : Type} : QState α → Prop
  | start : QReach cap (qInit α)
  | step (s t : QState α) : QReach cap s → QStep cap s t → QReach cap t

/-- C1 counterexample: field coercion is not total on raw strings — the
value `1.2.3` (and likewise the empty string) passes the character gate
but is not a parseable Python expression, so `ast.literal_eval` raises
SyntaxError, which the `except ValueError` fallback does not catch: the
exception escapes the row, and the generator that raised it is dead, so
the remaining rows are lost as well. -/
theorem C1_coerce_raises_cex :
    coerceField "1.2.3" = .error .syntaxError ∧
    coerceField "" = .error .syntaxError ∧
    get_data [[("a", "1"), ("b", "1.2.3")], [("a", "2")]] = [.error .syntaxError] :=
  ⟨by decide, by decide, by decide⟩

/-- C1 amended: coercion is deterministic and maps the documented
examples as stated — `123` to integer 123, `1.50` to float 1.5, `abc`
and `12a` to themselves as strings, `-3` to integer −3 — and a
ValueError anomaly (such as `1-2` or `--3`) falls back to the string;
but a gate-passing value that fails expression parsing (such as `1.2.3`
or the empty string) raises SyntaxError out of the row instead of
falling back to a string. -/
theorem C1_coerce_amended :
    coerceField "123" = .ok (.int 123) ∧
    coerceField "1.50" = .ok (.float (3/2)) ∧
    coerceField "abc" = .ok (.str "abc") ∧
    coerceField "12a" = .ok (.str "12a") ∧
    coerceField "-3" = .ok (.int (-3)) ∧
    coerceField "1-2" = .ok (.str "1-2") ∧
    coerceField "--3" = .ok (.str "--3") ∧
    coerceField "1.2.3" = .error .syntaxError := by
  refine ⟨by decide, ?_, by decide, by decide, by decide, by decide, by decide, by decide⟩
  have h : coerceField "1.50" = .ok (.float (Rat.divInt 3 2)) := by decide
  rw [h]
  norm_num [Rat.divInt_eq_div]

/-- C2: under timestamp replay the first record (no stored previous
timestamp) gets delay 0, every subsequent record gets exactly the
difference between the current and previous parsed timestamps, and a
zero or negative difference is not an error: it flows into
`wait_event.wait`, whose non-positive timeout returns at once, i.e. an
effective delay of 0. -/
theorem C2_replay_delay (t p t2 p2 e : ℚ) (he : 0 ≤ e) (hmono : t ≤ p) :
    get_time_stamp_diff (.ok t2) none = .ok (0, some t2) ∧
    get_time_stamp_diff (.ok t2) (some p2) = .ok (t2 - p2, some t2) ∧
    get_time_stamp_diff (.ok t) (some p) = .ok (t - p, some t) ∧
    event_wait false (t - p - e) = 0 := by
  have hle : t - p - e ≤ 0 := by linarith
  exact ⟨rfl, rfl, rfl, by simp [event_wait, hle]⟩

/-- Witness for C2 at concrete timestamps 5 then 7 (non-monotonic pair
7 then 5 for the clamping part) with one unit of elapsed read time. -/
theorem C2_replay_delay_witness :
    get_time_stamp_diff (.ok 9) none = .ok (0, some 9) ∧
    get_time_stamp_diff (.ok 9) (some 4) = .ok (9 - 4, some 9) ∧
    get_time_stamp_diff (.ok 5) (some 7) = .ok (5 - 7, some 5) ∧
    event_wait false (5 - 7 - 1) = 0 :=
  C2_replay_delay 5 7 9 4 1 (by norm_num) (by norm_num)

/-- C5 counterexample: bucket capacity under timestamp replay is not
always 1 — `BUCKET_SIZE` is a module-level global, so a batch session
(sample rate 50) followed by a timestamp-replay session in the same
process leaves the replay session with capacity 50. -/
theorem C5_bucket_leak_cex :
    plugin_start_bucket (plugin_start_bucket 1 "false" 50) "true" 50 = 50 ∧
    (50 : ℕ) ≠ 1 :=
  ⟨by decide, by decide⟩

/-- C5 amended: a session with `timestampFromFile` false gets capacity
equal to its sample rate; a session with the flag true keeps whatever
the global `BUCKET_SIZE` currently holds — 1 only in a fresh process,
otherwise the sample rate of the last batch session. -/
theorem C5_bucket_amended (bs rate : ℕ) :
    plugin_start_bucket bs "false" rate = rate ∧
    plugin_start_bucket bs "true" rate = bs ∧
    plugin_start_bucket 1 "true" rate = 1 :=
  ⟨rfl, rfl, rfl⟩

/-- C7 counterexample: a configuration whose `ingestMode` is `realtime`
— not one of the two documented modes — passes validation and is
returned unchanged, so no fatal error is raised even though the claimed
condition "ingestMode not in \x7bbatch, burst\x7d" holds. -/
theorem C7_realtime_accepted_cex :
    plugin_init ⟨true, "f.csv", 100, 1, 1000, "realtime"⟩ =
      .ok ⟨true, "f.csv", 100, 1, 1000, "realtime"⟩ ∧
    "realtime" ≠ "batch" ∧ "realtime" ≠ "burst" :=
  ⟨by decide, by decide, by decide⟩

/-- C7 amended: `plugin_init` raises its single aggregated RuntimeError
exactly when the file is missing, the filename is empty, sampleRate is
outside 1..1000000, burstSize or burstInterval is below 1, or the mode
is none of `burst`, `realtime`, `batch` (the check accepts the
undocumented `realtime`); otherwise the deep-copied configuration is
returned unchanged. -/
theorem C7_init_amended (c : InitCfg) :
    (plugin_init c = .ok c ∨ plugin_init c = .error (.runtimeError "")) ∧
    (plugin_init c = .error (.runtimeError "") ↔
      (c.csvFileExists = false ∨ c.csvFilename = "" ∨ c.sampleRate < 1 ∨
       1000000 < c.sampleRate ∨ c.burstSize < 1 ∨ c.burstInterval < 1 ∨
       (c.ingestMode ≠ "burst" ∧ c.ingestMode ≠ "realtime" ∧ c.ingestMode ≠ "batch"))) := by
  have hiff : initErrors c = true ↔
      (c.csvFileExists = false ∨ c.csvFilename = "" ∨ c.sampleRate < 1 ∨
       1000000 < c.sampleRate ∨ c.burstSize < 1 ∨ c.burstInterval < 1 ∨
       (c.ingestMode ≠ "burst" ∧ c.ingestMode ≠ "realtime" ∧ c.ingestMode ≠ "batch")) := by
    simp only [initErrors, Bool.or_eq_true, decide_eq_true_eq]
    tauto
  by_cases h : initErrors c = true
  · refine ⟨Or.inr ?_, ?_⟩
    · simp [plugin_init, h]
    · simp only [plugin_init, h, if_true]
      exact ⟨fun _ => hiff.mp h, fun _ => by simp⟩
  · have hf : initErrors c = false := by simpa using h
    refine ⟨Or.inl ?_, ?_⟩
    · simp [plugin_init, hf]
    · simp only [plugin_init, hf, if_false]
      constructor
      · intro hc; exact absurd hc (by simp)
      · intro hr; exact absurd (hiff.mpr hr) (by simp [hf])

/-- C8 counterexample: the nominal per-tick delay is not exactly
1/sampleRate, nor exactly burstInterval/1000 — `Producer.__init__`
rounds to len(str(n))+1 decimal places, so sampleRate 3 yields 0.33
(not 1/3) and burstInterval 3 ms yields 0.0 (not 0.003). -/
theorem C8_period_inexact_cex :
    producer_period false 0 3 ≠ 1/3 ∧ producer_period true 3 1 ≠ 3/1000 := by
  have hd : numDigits 3 = 1 := by decide
  constructor
  · norm_num [producer_period, pyRound, hd]
  · norm_num [producer_period, pyRound, hd]

/-- C8 amended: the per-session delay is `round(1/sampleRate,
len(str(sampleRate))+1)` in batch mode and `round(burstInterval/1000,
len(str(burstInterval))+1)` in burst mode — equal to the exact quotient
whenever it fits the rounding budget (sampleRate 100, burst intervals
1000 and 250 ms), but not in general (sampleRate 3 gives 0.33, burst
interval 3 ms gives 0.0). -/
theorem C8_period_values :
    producer_period false 0 100 = 1/100 ∧
    producer_period true 1000 1 = 1 ∧
    producer_period true 250 1 = 1/4 ∧
    producer_period false 0 3 = 33/100 ∧
    producer_period true 3 1 = 0 := by
  have h100 : numDigits 100 = 3 := by decide
  have h1000 : numDigits 1000 = 4 := by decide
  have h250 : numDigits 250 = 3 := by decide
  have h3 : numDigits 3 = 1 := by decide
  refine ⟨?_, ?_, ?_, ?_, ?_⟩ <;>
    norm_num [producer_period, pyRound, h100, h1000, h250, h3]

/-- C3: a read or parse error on the very first Producer tick does not
skip the tick — it kills the thread.  The handler at playback.py:429
only logs, leaving `next_iteration_secs` unbound, and the wait at
playback.py:432 then raises UnboundLocalError out of `run` (first
conjunct: malformed timestamp during replay pacing on the first row).
On a later tick the stale previous value keeps the loop alive, but a
malformed-timestamp record is still pushed rather than skipped
(conjuncts 2-3), while a generator error on a later tick does produce
the claimed empty skipped tick (conjuncts 4-5). -/
theorem C3_first_tick_error_kills_thread :
    (producerTick ⟨false, 1, true, false, [], 1/100⟩ (fun _ => .error "bad") [] 10 0 false
      ⟨[.ok [("ts", .str "x"), ("v", .int 1)], .ok [("ts", .str "x"), ("v", .int 2)]],
       none, none, false, []⟩).status = .crashed ∧
    (producerTick ⟨false, 1, true, false, [], 1/100⟩ (fun _ => .error "bad") [] 10 0 false
      ⟨[.ok [("ts", .str "x"), ("v", .int 1)]], none, some 1, false, []⟩).status = .continued ∧
    (producerTick ⟨false, 1, true, false, [], 1/100⟩ (fun _ => .error "bad") [] 10 0 false
      ⟨[.ok [("ts", .str "x"), ("v", .int 1)]], none, some 1, false, []⟩).pushed =
        some (.batch [("ts", .str "x"), ("v", .int 1)]) ∧
    (producerTick ⟨false, 1, false, false, [], 1/100⟩ (fun _ => .error "bad") [] 10 0 false
      ⟨[.error .syntaxError], none, some 1, false, []⟩).status = .continued ∧
    (producerTick ⟨false, 1, false, false, [], 1/100⟩ (fun _ => .error "bad") [] 10 0 false
      ⟨[.error .syntaxError], none, some 1, false, []⟩).pushed = none :=
  ⟨rfl, rfl, rfl, rfl, rfl⟩

/-- C6 counterexample: after an ordinary push that leaves the queue
below capacity (one item, capacity 3) the Producer does not release the
condition lock — the tick ends with the lock still owned, so it is held
across the whole of the next tick, contrary to the claim that it is
only taken around the push. -/
theorem C6_lock_retained_cex :
    (producerTick ⟨false, 1, false, false, [], 1/10⟩ (fun _ => .error "") [] 3 0 false
      ⟨[.ok [("a", .int 1)], .ok [("a", .int 2)]], none, none, false, []⟩).notified = false ∧
    (producerTick ⟨false, 1, false, false, [], 1/10⟩ (fun _ => .error "") [] 3 0 false
      ⟨[.ok [("a", .int 1)], .ok [("a", .int 2)]], none, none, false, []⟩).state.owned = true ∧
    (producerTick ⟨false, 1, false, false, [], 1/10⟩ (fun _ => .error "") [] 3 0 false
      ⟨[.ok [("a", .int 1)], .ok [("a", .int 2)]], none, none, false, []⟩).pushed =
        some (.batch [("a", .int 1)]) ∧
    (producerTick ⟨false, 1, false, false, [], 1/10⟩ (fun _ => .error "") [] 3 0 false
      ⟨[.ok [("a", .int 1)], .ok [("a", .int 2)]], none, none, false, []⟩).status = .continued :=
  ⟨rfl, rfl, rfl, rfl⟩

/-- C6 amended: the Producer signals the Consumer exactly when the
queue (after the push, if any) is full or end of data was reached —
never on an ordinary below-capacity push — and it holds the lock at the
end of the block exactly when it did not signal: the lock is acquired
opportunistically but retained across whole ticks until the next
full-or-EOF signal. -/
theorem C6_signal_amended (owned : Bool) (buf : List SensorData) (sd : SensorData)
    (eofR : Bool) (cap : ℕ) :
    ((lockPhase owned buf sd eofR cap).notified = true ↔
      ((0 < cap ∧ cap ≤ (lockPhase owned buf sd eofR cap).buf.length) ∨ eofR = true)) ∧
    (lockPhase owned buf sd eofR cap).owned = !(lockPhase owned buf sd eofR cap).notified := by
  have hbool : ∀ b : Bool, (if b = true then false else true) = !b := by decide
  constructor
  · simp [lockPhase]
  · simp only [lockPhase]
    exact hbool _

/-- C9: shutdown does set the cancellation flag first (so a pacing wait
returns at once: conjunct 4), is idempotent and safe with no session
running (conjuncts 1-3) — but the Producer loop does not terminate:
`Thread._stop()` only marks the thread object, `run` never reads
`wait_event` except as a wait timeout, so after shutdown a tick still
reads the file and pushes an envelope (conjuncts 5-7, with the
cancellation flag set). -/
theorem C9_shutdown_keeps_producing :
    plugin_shutdown ⟨false, true, true⟩ = ⟨true, false, false⟩ ∧
    (∀ g : Session, plugin_shutdown (plugin_shutdown g) = plugin_shutdown g) ∧
    plugin_shutdown ⟨false, false, false⟩ = ⟨true, false, false⟩ ∧
    (∀ t : ℚ, event_wait true t = 0) ∧
    (producerTick ⟨false, 1, false, false, [], 1/100⟩ (fun _ => .error "") [] 10 0 true
      ⟨[.ok [("a", .int 1)], .ok [("a", .int 2)]], none, none, false, []⟩).status = .continued ∧
    (producerTick ⟨false, 1, false, false, [], 1/100⟩ (fun _ => .error "") [] 10 0 true
      ⟨[.ok [("a", .int 1)], .ok [("a", .int 2)]], none, none, false, []⟩).pushed =
        some (.batch [("a", .int 1)]) ∧
    (producerTick ⟨false, 1, false, false, [], 1/100⟩ (fun _ => .error "") [] 10 0 true
      ⟨[.ok [("a", .int 1)], .ok [("a", .int 2)]], none, none, false, []⟩).waited = 0 :=
  ⟨rfl, fun _ => rfl, rfl, fun _ => rfl, rfl, rfl, rfl⟩

/-- C10 counterexample: in burst mode the nominal delay stored for the
wait is the session period, which for burstInterval = 3 ms is 0.0 —
not burstInterval/1000 = 0.003 — because of the rounding in
`Producer.__init__`. -/
theorem C10_burst_period_cex :
    (producerTick ⟨true, 1, true, false, [], producer_period true 3 1⟩ (fun _ => .error "x")
      [] 10 0 false
      ⟨[.ok [("a", .int 1)], .ok [("a", .int 2)]], none, none, false, []⟩).state.nis =
        some (producer_period true 3 1) ∧
    producer_period true 3 1 ≠ 3/1000 := by
  have hd : numDigits 3 = 1 := by decide
  exact ⟨rfl, by norm_num [producer_period, pyRound, hd]⟩

/-- Helper: from any reachable queue state, a run of Consumer drain
steps (the `while qsize > 0` loop) reaches the state where everything
ever pushed has been drained. -/
theorem qreach_drain_all {α : Type} (cap : ℕ) (buf : List α) :
    ∀ (s : QState α), QReach cap s → s.buf = buf →
      QReach cap (QState.mk s.pushed [] (s.drained ++ buf)) := by
  induction buf with
  | nil =>
    intro s hr hb
    have hs : (QState.mk s.pushed ([] : List α) (s.drained ++ [])) = s := by
      cases s; simp_all
    rw [hs]; exact hr
  | cons x rest ih =>
    intro s hr hb
    have hstep : QStep cap s (QState.mk s.pushed rest (s.drained ++ [x])) :=
      QStep.drain s x rest hb
    have hr2 : QReach cap (QState.mk s.pushed rest (s.drained ++ [x])) :=
      QReach.step _ _ hr hstep
    have h3 := ih _ hr2 rfl
    simpa using h3

/-- C4: in every state reachable by any interleaving of Producer pushes
and Consumer drains, the drained envelopes followed by the buffered ones
are exactly the pushed ones in push order — so nothing is lost,
duplicated or reordered — the occupancy never exceeds the configured
capacity, and continuing to drain delivers every pushed envelope exactly
once, in FIFO order. -/
theorem C4_handoff_fifo {α : Type} (cap : ℕ) (s : QState α) (h : QReach cap s) :
    s.drained ++ s.buf = s.pushed ∧ s.buf.length ≤ cap ∧
    QReach cap (QState.mk s.pushed [] s.pushed) := by
  have hinv : s.drained ++ s.buf = s.pushed ∧ s.buf.length ≤ cap := by
    induction h with
    | start => simp [qInit]
    | step u t hu hst ih =>
      cases hst with
      | push x hlt =>
        refine ⟨?_, ?_⟩
        · simp [← List.append_assoc, ih.1]
        · simp only [List.length_append, List.length_singleton]
          omega
      | drain x rest hbuf =>
        obtain ⟨ih1, ih2⟩ := ih
        refine ⟨?_, ?_⟩
        · rw [← ih1, hbuf]; simp
        · have hlen : u.buf.length = rest.length + 1 := by rw [hbuf]; simp
          show rest.length ≤ cap
          omega
  refine ⟨hinv.1, hinv.2, ?_⟩
  have h2 := qreach_drain_all cap s.buf s h rfl
  rwa [hinv.1] at h2

/-- Witness for C4: a capacity-2 queue after push 5, push 6, drain,
push 7 — the invariant and the fully-drained state are obtained by
applying the theorem to that concrete trace. -/
theorem C4_handoff_fifo_witness :
    ([5] : List ℕ) ++ [6, 7] = [5, 6, 7] ∧ ([6, 7] : List ℕ).length ≤ 2 ∧
    QReach 2 (QState.mk [5, 6, 7] [] [5, 6, 7]) :=
  C4_handoff_fifo 2 (QState.mk [5, 6, 7] [6, 7] [5])
    (QReach.step _ _ (QReach.step _ _ (QReach.step _ _ (QReach.step _ _ QReach.start
      (QStep.push _ 5 (by decide))) (QStep.push _ 6 (by decide)))
      (QStep.drain _ 5 [6] rfl)) (QStep.push _ 7 (by decide)))

/-- C10 amended: with `ingestMode = burst`, one Producer tick is
entirely independent of the `timestampFromFile` flag and of the
timestamp parser (flipping the flag and swapping the parser yields the
same tick outcome), the stored previous timestamp is never updated, and
the nominal delay placed in `next_iteration_secs` is the session period
(which, per C8, is burstInterval/1000 only up to the rounding of
`Producer.__init__`). -/
theorem C10_burst_ignores_ts (cfg : Cfg) (p1 p2 : Row → Except String ℚ)
    (fresh : Iter) (cap : ℕ) (e : ℚ) (c : Bool) (s : PState)
    (hb : cfg.ingestBurst = true) :
    producerTick cfg p1 fresh cap e c s =
      producerTick { cfg with tsFromFile := !cfg.tsFromFile } p2 fresh cap e c s ∧
    (producerTick cfg p1 fresh cap e c s).state.prv = s.prv := by
  constructor
  · simp [producerTick, hb]
  · simp only [producerTick, hb, if_true]
    cases hcb : collectBurst cfg.readingCols cfg.burstSize s.iter with
    | allRead pts it2 => simp [hcb]
    | eofHit pts it2 =>
      cases hn : s.nis with
      | none => simp [hcb, hn]
      | some d =>
        cases hr : cfg.repeatLoop <;> simp [hcb, hn, hr]
    | excHit it2 =>
      cases hn : s.nis with
      | none => simp [hcb, hn]
      | some d => simp [hcb, hn]

/-- Witness for C10 at a concrete burst configuration and one-row
iterator: the replay flag and parser are irrelevant to the tick. -/
theorem C10_burst_ignores_ts_witness :
    producerTick ⟨true, 1, false, false, [], 1⟩ (fun _ => .ok 0) [] 5 0 false
        ⟨[.ok [("a", .int 1)]], none, some 1, false, []⟩ =
      producerTick ⟨true, 1, true, false, [], 1⟩ (fun _ => .error "") [] 5 0 false
        ⟨[.ok [("a", .int 1)]], none, some 1, false, []⟩ ∧
    (producerTick ⟨true, 1, false, false, [], 1⟩ (fun _ => .ok 0) [] 5 0 false
        ⟨[.ok [("a", .int 1)]], none, some 1, false, []⟩).state.prv = none :=
  C10_burst_ignores_ts ⟨true, 1, false, false, [], 1⟩ (fun _ => .ok 0) (fun _ => .error "")
    [] 5 0 false ⟨[.ok [("a", .int 1)]], none, some 1, false, []⟩ rfl
